import Mathlib

/-!
Shallow embedding of the session/authentication core of the
`umalmyha/customers` repository (Go).

Embedded source files:
- `internal/model/auth/user.go`, `internal/model/auth/jwt.go`
- `internal/domain/auth` refresh-token model (`RefreshToken.Verify`,
  sentinel errors) and its jwt variant
- `internal/service/auth.go` (`authService.Signup/Login/Refresh/Logout`)
- `pkg/db/transactor/pgx.go` (`WithinTransaction` commit/rollback shape)
- the HTTP signup response projection from `internal/handlers/auth.go`

Modelling conventions:
- Go `time.Time` and `time.Duration` are integers counting nanoseconds
  (`time.Second = 1000000000`); `Time.Add` is `+`, `Time.Before` is `<`,
  `Time.Unix()` is floor division by `nsPerSecond`.
- The Postgres-backed stores are modelled by their in-memory semantics on
  an `AuthState` (INSERT appends, SELECT-by-key finds the first match,
  DELETE filters).  External effects that can fail (bcrypt, Ed25519
  signing, each SQL round trip) are driven by an `Env` of explicit
  failure oracles, so that every error branch of the Go code is
  reachable in the model.
- `uuid.NewString()` results are passed in as explicit arguments
  (`freshJwtId`, `freshTokenId`, `freshUserId`).
-/

namespace Customers

/-- Go `time.Second` expressed in nanoseconds. -/
def nsPerSecond : Int := 1000000000

/-- Go `time.Time.Unix()`: seconds since epoch, floor of the nanosecond
instant (Go stores `sec` and a nonnegative sub-second `nsec`). -/
def unixSeconds (t : Int) : Int := Int.fdiv t nsPerSecond

/-- `auth.User` from `internal/model/auth/user.go`. -/
structure User where
  id : String
  email : String
  passwordHash : String
deriving Repr, DecidableEq

/-- `auth.RefreshToken` from the `internal/domain/auth` refresh-token model
(also `internal/model/refresh_token.go`): persisted token record. -/
structure RefreshToken where
  id : String
  userId : String
  fingerprint : String
  /-- `ExpiresIn`: time to live in seconds (Go `int`). -/
  expiresIn : Int
  /-- `CreatedAt`: creation instant in nanoseconds (Go `time.Time`). -/
  createdAt : Int
deriving Repr, DecidableEq

/-- Sentinel error values of `RefreshToken.Verify` in
`internal/domain/auth`: `ErrInvalidFingerprint` and
`ErrRefreshTokenExpired` are distinct exported error values. -/
inductive RefreshVerifyErr where
  | invalidFingerprint
  | expired
deriving Repr, DecidableEq

/-- `RefreshToken.Verify(fingerprint, now)` from `internal/domain/auth`:
first compares the fingerprint, then checks
`r.CreatedAt.Add(time.Duration(r.ExpiresIn) * time.Second).Before(now)`.
Returns `none` when the token is valid. -/
def RefreshToken.Verify (r : RefreshToken) (fingerprint : String) (now : Int) :
    Option RefreshVerifyErr :=
  if r.fingerprint ≠ fingerprint then
    some .invalidFingerprint
  else if r.createdAt + r.expiresIn * nsPerSecond < now then
    some .expired
  else
    none

/-- Taxonomy of the failure *branches* of the auth service: one case per
`return ..., err` site of `internal/service/auth.go`.  The constructors
separate the branches of the control flow; they do not assert that the
error *values* the Go code returns at those sites are distinct — the
message-level model below (`RefreshToken.VerifyMessage`,
`refreshErrorValue`) records the actual error values of the embedded
service, where the fingerprint-mismatch and unknown-id branches build
the same generic `echo` 400. -/
inductive AuthErr where
  /-- `echo.ErrUnauthorized` (unknown user or wrong password at Login). -/
  | unauthorized
  /-- Signup conflict: `user with email ... already exist`. -/
  | emailTaken
  /-- Refresh with an id absent from the store: `invalid refresh token provided`. -/
  | invalidToken
  /-- Fingerprint mismatch on a presented refresh token. -/
  | invalidFingerprint
  /-- Refresh token past its time to live. -/
  | expired
  /-- `GeneratePasswordHash` failure. -/
  | hashingFailure
  /-- `jwtIssuer.Sign` failure. -/
  | signingFailure
  /-- Any failed store round trip. -/
  | storeFailure
deriving Repr, DecidableEq

/-- The state persisted in the backing database: the `users` and
`refresh_tokens` tables. -/
structure AuthState where
  users : List User
  tokens : List RefreshToken
deriving Repr, DecidableEq

/-- `SELECT ... FROM users WHERE email = $1` (`userRps.FindByEmail`);
absent row is surfaced as `none` (the Go code returns `nil, nil`). -/
def findUserByEmail (s : AuthState) (email : String) : Option User :=
  s.users.find? (fun u => u.email == email)

/-- `SELECT ... FROM users WHERE id = $1` (`userRps.FindById`);
absent row is surfaced as `none` (the Go code returns `nil, nil`). -/
def findUserById (s : AuthState) (id : String) : Option User :=
  s.users.find? (fun u => u.id == id)

/-- `INSERT INTO users ...` (`userRps.Create`). -/
def createUser (s : AuthState) (u : User) : AuthState :=
  { s with users := s.users ++ [u] }

/-- `SELECT * FROM refresh_tokens WHERE id = $1` (`rfrTknRps.FindById`). -/
def findTokenById (s : AuthState) (id : String) : Option RefreshToken :=
  s.tokens.find? (fun t => t.id == id)

/-- `SELECT * FROM refresh_tokens WHERE user_id = $1`
(`rfrTknRps.FindTokensByUserId`). -/
def findTokensByUserId (s : AuthState) (userId : String) : List RefreshToken :=
  s.tokens.filter (fun t => t.userId == userId)

/-- `DELETE FROM refresh_tokens WHERE id = $1` (`rfrTknRps.DeleteById`). -/
def deleteTokenById (s : AuthState) (id : String) : AuthState :=
  { s with tokens := s.tokens.filter (fun t => !(t.id == id)) }

/-- `DELETE FROM refresh_tokens WHERE user_id = $1`
(`rfrTknRps.DeleteByUserId`). -/
def deleteTokensByUserId (s : AuthState) (userId : String) : AuthState :=
  { s with tokens := s.tokens.filter (fun t => !(t.userId == userId)) }

/-- `INSERT INTO refresh_tokens ...` (`rfrTknRps.Create`). -/
def createToken (s : AuthState) (t : RefreshToken) : AuthState :=
  { s with tokens := s.tokens ++ [t] }

/-- The registered claims embedded into an access token
(`auth.JwtClaims` wrapping `jwt.RegisteredClaims`). -/
structure JwtClaims where
  id : String
  issuer : String
  subject : String
  /-- `ExpiresAt` registered claim, as a nanosecond instant. -/
  expiresAt : Int
  /-- `IssuedAt` registered claim, as a nanosecond instant. -/
  issuedAt : Int
deriving Repr, DecidableEq

/-- The signed compact token produced by `token.SignedString(privateKey)`:
modelled as the algorithm header plus the embedded claims (the signature
bytes themselves are abstracted away; signature validity is an oracle on
the verifying key). -/
structure SignedToken where
  alg : String
  claims : JwtClaims
deriving Repr, DecidableEq

/-- `auth.Jwt` from `internal/model/auth/jwt.go`: the signed token plus
the expiry as a Unix-seconds value. -/
structure Jwt where
  signed : SignedToken
  expiresAt : Int
deriving Repr, DecidableEq

/-- `auth.JwtIssuer`: issuer name, signing method algorithm, access-token
time to live in nanoseconds (the private key is abstracted away — the
model records only what ends up in the token). -/
structure JwtIssuer where
  issuer : String
  methodAlg : String
  timeToLive : Int
deriving Repr, DecidableEq

/-- `JwtIssuer.Sign(subj, issuedAt)` from `internal/model/auth/jwt.go`:
`expiresAt := issuedAt.Add(j.timeToLive)`; claims carry
`ExpiresAt: jwt.NewNumericDate(expiresAt)` and
`IssuedAt: jwt.NewNumericDate(issuedAt)`; the returned `Jwt.ExpiresAt`
is `expiresAt.Unix()`.  The fresh `uuid.NewString()` claim id is the
`freshId` argument. -/
def JwtIssuer.Sign (j : JwtIssuer) (subj : String) (issuedAt : Int)
    (freshId : String) : Jwt :=
  let expiresAt := issuedAt + j.timeToLive
  { signed :=
      { alg := j.methodAlg
        claims :=
          { id := freshId
            issuer := j.issuer
            subject := subj
            expiresAt := expiresAt
            issuedAt := issuedAt } }
    expiresAt := unixSeconds expiresAt }

/-- `JwtIssuer.Sign(subj, at)` as written in the `internal/domain/auth`
jwt variant: it also computes `expiresAt := at.Add(j.timeToLive)` and
returns `Jwt{ExpiresAt: expiresAt.Unix()}`, but fills the registered
claims with `ExpiresAt: jwt.NewNumericDate(at)` and
`IssuedAt: jwt.NewNumericDate(expiresAt)` — the two embedded timestamps
are transposed relative to `internal/model/auth/jwt.go`.  The Go
parameter `at` is rendered `atTime` (`at` is reserved in Lean). -/
def JwtIssuer.SignDomainVariant (j : JwtIssuer) (subj : String) (atTime : Int)
    (freshId : String) : Jwt :=
  let expiresAt := atTime + j.timeToLive
  { signed :=
      { alg := j.methodAlg
        claims :=
          { id := freshId
            issuer := j.issuer
            subject := subj
            expiresAt := atTime
            issuedAt := expiresAt } }
    expiresAt := unixSeconds expiresAt }

/-- Failure cases of access-token verification. -/
inductive TokenVerifyErr where
  /-- `keyFunc` rejected the token: `failed to verify signing algorithm`. -/
  | algorithmMismatch
  /-- Signature did not validate against the public key. -/
  | invalidSignature
  /-- `ExpiresAt` registered claim lies in the past. -/
  | expired
deriving Repr, DecidableEq

/-- `auth.JwtValidator`: expected signing-method algorithm plus the
public key (kept opaque as a string). -/
structure JwtValidator where
  methodAlg : String
  publicKey : String
deriving Repr, DecidableEq

/-- `JwtValidator.keyFunc` from `internal/model/auth/jwt.go`: hands the
public key to the parser only when the token's algorithm header exactly
matches the configured method's algorithm. -/
def JwtValidator.keyFunc (j : JwtValidator) (t : SignedToken) :
    Except TokenVerifyErr String :=
  if t.alg ≠ j.methodAlg then .error .algorithmMismatch
  else .ok j.publicKey

/-- `JwtValidator.Verify(rawToken)`: `jwt.ParseWithClaims` first calls
`keyFunc`; only when that succeeds is the returned key used to check the
signature (modelled by the `sigCheck` oracle on the key), and the
registered-claims validation (expiry) runs as part of the same parse.
Parameter `sigCheck` abstracts Ed25519 signature verification against a
candidate key; `now` is the clock used by claims validation. -/
def JwtValidator.Verify (j : JwtValidator) (t : SignedToken)
    (sigCheck : String → Bool) (now : Int) : Except TokenVerifyErr JwtClaims :=
  match j.keyFunc t with
  | .error e => .error e
  | .ok key =>
    if sigCheck key = false then .error .invalidSignature
    else if t.claims.expiresAt < now then .error .expired
    else .ok t.claims

/-- `config.RefreshTokenCfg`: per-user live-token quota and refresh-token
time to live (nanoseconds, a Go `time.Duration`). -/
structure RefreshTokenCfg where
  maxCount : Int
  timeToLive : Int
deriving Repr, DecidableEq

/-- The `authService` receiver from `internal/service/auth.go`: the jwt
issuer and the refresh-token configuration (stores and transactor are
modelled as state and oracles). -/
structure AuthService where
  jwtIssuer : JwtIssuer
  rfrTokenCfg : RefreshTokenCfg
deriving Repr, DecidableEq

/-- `authService.refreshToken(userId, fingerprint, createdAt)`: pure
construction of a new refresh token; `ExpiresIn` is
`int(s.rfrTokenCfg.TimeToLive.Seconds())` (truncated seconds) and the
fresh `uuid.NewString()` id is the `freshId` argument. -/
def AuthService.refreshToken (svc : AuthService) (userId fingerprint : String)
    (createdAt : Int) (freshId : String) : RefreshToken :=
  { id := freshId
    userId := userId
    fingerprint := fingerprint
    expiresIn := svc.rfrTokenCfg.timeToLive / nsPerSecond
    createdAt := createdAt }

/-- Oracles for the effectful collaborators of the service: the bcrypt
primitives of `internal/model/auth/user.go` and, for every store round
trip and the signing step, a flag deciding whether that call fails (the
`if err != nil` branches of the Go code). -/
structure Env where
  /-- `auth.GeneratePasswordHash` (bcrypt) as a function of the password. -/
  hashFn : String → String
  /-- `bcrypt.CompareHashAndPassword(hash, password)` succeeding. -/
  pwOk : String → String → Bool
  hashErr : Bool
  findByEmailErr : Bool
  createUserErr : Bool
  signErr : Bool
  findTokensErr : Bool
  deleteByUserErr : Bool
  createTokenErr : Bool
  findTokenErr : Bool
  deleteTokenErr : Bool
  findUserErr : Bool

/-- An `Env` in which no collaborator call fails and password
verification succeeds exactly when the stored hash is `hashFn` of the
presented password. -/
def Env.reliable (hashFn : String → String) : Env :=
  { hashFn := hashFn
    pwOk := fun hash password => hash == hashFn password
    hashErr := false
    findByEmailErr := false
    createUserErr := false
    signErr := false
    findTokensErr := false
    deleteByUserErr := false
    createTokenErr := false
    findTokenErr := false
    deleteTokenErr := false
    findUserErr := false }

/-- Result of a service call: a value, a returned error, or a runtime
panic (an unguarded nil-pointer dereference in the Go code). -/
inductive Outcome (α : Type) where
  | ok (v : α)
  | err (e : AuthErr)
  | panics
deriving Repr, DecidableEq

/-- `authService.Signup(ctx, email, password)` from
`internal/service/auth.go`: reject when the email is taken, hash the
password, create the user with a fresh id, and return the created
`auth.User` record (the Go code returns `u`, whose `PasswordHash` field
is the generated hash).  Returns the result together with the resulting
store state. -/
def AuthService.Signup (env : Env) (s : AuthState) (email password : String)
    (freshUserId : String) : Outcome User × AuthState :=
  if env.findByEmailErr then (.err .storeFailure, s)
  else
    match findUserByEmail s email with
    | some _ => (.err .emailTaken, s)
    | none =>
      if env.hashErr then (.err .hashingFailure, s)
      else
        let u : User :=
          { id := freshUserId, email := email, passwordHash := env.hashFn password }
        if env.createUserErr then (.err .storeFailure, s)
        else (.ok u, createUser s u)

/-- The HTTP signup response of `internal/handlers/auth.go`: the handler
serializes only the created user's id and email. -/
structure SignupResponse where
  id : String
  email : String
deriving Repr, DecidableEq

/-- Projection applied by the signup handler to the service result
before serializing it (`&struct{Id; Email}{Id: newUser.Id, Email:
newUser.Email}`). -/
def signupResponse (u : User) : SignupResponse :=
  { id := u.id, email := u.email }

/-- `pgxTransactor.WithinTransaction` from `pkg/db/transactor/pgx.go`:
runs the body against the current state through the transaction bound to
the context (every store call of the body goes through `Executor(ctx)`,
i.e. the transaction); when the body returns an error the transaction is
rolled back — the initial state is what remains observable — and
otherwise it is committed.  `BeginTx`/`Commit`/`Rollback` themselves are
modelled as non-failing. -/
def WithinTransaction (s : AuthState)
    (body : AuthState → Except AuthErr (α × AuthState)) :
    Except AuthErr α × AuthState :=
  match body s with
  | .ok (v, s') => (.ok v, s')
  | .error e => (.error e, s)

/-- The transaction body of `authService.Login` from
`internal/service/auth.go`, in source order: find the user by email
(absent user is `Unauthorized`), verify the password (mismatch is
`Unauthorized`), sign the access token for the login email, load the
user's refresh tokens, delete all of them when `len(userTokens) >=
MaxCount`, then create the freshly minted refresh token. -/
def AuthService.LoginBody (svc : AuthService) (env : Env)
    (email password fingerprint : String) (now : Int)
    (freshJwtId freshTokenId : String) (s : AuthState) :
    Except AuthErr ((Jwt × RefreshToken) × AuthState) :=
  if env.findByEmailErr then .error .storeFailure
  else
    match findUserByEmail s email with
    | none => .error .unauthorized
    | some user =>
      if env.pwOk user.passwordHash password = false then .error .unauthorized
      else if env.signErr then .error .signingFailure
      else
        let jwtToken := svc.jwtIssuer.Sign email now freshJwtId
        if env.findTokensErr then .error .storeFailure
        else
          let userTokens := findTokensByUserId s user.id
          if (userTokens.length : Int) ≥ svc.rfrTokenCfg.maxCount then
            if env.deleteByUserErr then .error .storeFailure
            else
              let s₁ := deleteTokensByUserId s user.id
              let rfrToken := svc.refreshToken user.id fingerprint now freshTokenId
              if env.createTokenErr then .error .storeFailure
              else .ok ((jwtToken, rfrToken), createToken s₁ rfrToken)
          else
            let rfrToken := svc.refreshToken user.id fingerprint now freshTokenId
            if env.createTokenErr then .error .storeFailure
            else .ok ((jwtToken, rfrToken), createToken s rfrToken)

/-- `authService.Login(ctx, email, password, fingerprint, now)`: the
whole body runs inside one `transactor.WithinTransaction`. -/
def AuthService.Login (svc : AuthService) (env : Env) (s : AuthState)
    (email password fingerprint : String) (now : Int)
    (freshJwtId freshTokenId : String) :
    Except AuthErr (Jwt × RefreshToken) × AuthState :=
  WithinTransaction s
    (svc.LoginBody env email password fingerprint now freshJwtId freshTokenId)

/-- `authService.Refresh(ctx, rfrTokenId, fingerprint, now)` from
`internal/service/auth.go`, in source order: look up the token by id
(absent is the `invalid refresh token provided` error), delete it by id
before validation, run `RefreshToken.Verify` (fingerprint first, then
expiry), look up the owning user by id — the Go code does not check the
`nil` user case and dereferences `user.Email`, modelled as `.panics` —
sign a new access token and create a new refresh token for the same
fingerprint. -/
def AuthService.Refresh (svc : AuthService) (env : Env) (s : AuthState)
    (rfrTokenId fingerprint : String) (now : Int)
    (freshJwtId freshTokenId : String) :
    Outcome (Jwt × RefreshToken) × AuthState :=
  if env.findTokenErr then (.err .storeFailure, s)
  else
    match findTokenById s rfrTokenId with
    | none => (.err .invalidToken, s)
    | some rfrToken =>
      if env.deleteTokenErr then (.err .storeFailure, s)
      else
        let s₁ := deleteTokenById s rfrToken.id
        match rfrToken.Verify fingerprint now with
        | some .invalidFingerprint => (.err .invalidFingerprint, s₁)
        | some .expired => (.err .expired, s₁)
        | none =>
          if env.findUserErr then (.err .storeFailure, s₁)
          else
            match findUserById s₁ rfrToken.userId with
            | none => (.panics, s₁)
            | some user =>
              if env.signErr then (.err .signingFailure, s₁)
              else
                let jwtToken := svc.jwtIssuer.Sign user.email now freshJwtId
                let newRfrToken := svc.refreshToken user.id fingerprint now freshTokenId
                if env.createTokenErr then (.err .storeFailure, s₁)
                else (.ok (jwtToken, newRfrToken), createToken s₁ newRfrToken)

/-- `authService.Logout(ctx, rfrTokenId)`: unconditionally delete the
token by id. -/
def AuthService.Logout (env : Env) (s : AuthState) (rfrTokenId : String) :
    Outcome Unit × AuthState :=
  if env.deleteTokenErr then (.err .storeFailure, s)
  else (.ok (), deleteTokenById s rfrTokenId)

/-- Outcomes of `Refresh` in which the redemption attempt got past the
token lookup: success, fingerprint mismatch, or expiry. -/
def consumedOutcome : Outcome (Jwt × RefreshToken) → Bool
  | .ok _ => true
  | .err .invalidFingerprint => true
  | .err .expired => true
  | _ => false

/-- An `echo.NewHTTPError(code, message)` value as returned by the
service layer: an HTTP status code together with a message string. -/
structure HTTPError where
  code : Int
  message : String
deriving Repr, DecidableEq

/-- `http.StatusBadRequest`. -/
def statusBadRequest : Int := 400

/-- `RefreshToken.Verify(fingerprint, now)` as written in
`src/unnamed/part_018`: same checks in the same order as the
`internal/domain/auth` version, but the errors are built with
`errors.New` and carry only a message string — the fingerprint-mismatch
message is `invalid refresh token provided`, the expiry message is
`refresh token already expired`.  Returns the error message, or `none`
when the token is valid. -/
def RefreshToken.VerifyMessage (r : RefreshToken) (fingerprint : String)
    (now : Int) : Option String :=
  if r.fingerprint ≠ fingerprint then
    some "invalid refresh token provided"
  else if r.createdAt + r.expiresIn * nsPerSecond < now then
    some "refresh token already expired"
  else
    none

/-- The error value of the validation branches of `authService.Refresh`
in `internal/service/auth.go` when its `RefreshToken.Verify` is the
`part_018` variant: an id absent from the store yields
`echo.NewHTTPError(http.StatusBadRequest, "invalid refresh token
provided")`, and a `Verify` failure is wrapped as
`echo.NewHTTPError(http.StatusBadRequest, err.Error())`.  This is the
error channel only — the store/signing failure oracles (which surface
the collaborator's own error, not an `echo` 400) and the state effects
(in `AuthService.Refresh`) are out of its scope; the delete that runs
between the lookup and `Verify` does not touch the returned error
value. -/
def refreshErrorValue (s : AuthState) (rfrTokenId fingerprint : String)
    (now : Int) : Option HTTPError :=
  match findTokenById s rfrTokenId with
  | none => some { code := statusBadRequest, message := "invalid refresh token provided" }
  | some rfrToken =>
    match rfrToken.VerifyMessage fingerprint now with
    | some msg => some { code := statusBadRequest, message := msg }
    | none => none

/-! ### Fixture values used by witnesses and counterexamples -/

/-- A service configured like the defaults of `internal/config/config.go`
with `MaxCount` lowered to 2 as in the spec's concrete scenario. -/
def fixtureSvc : AuthService :=
  { jwtIssuer :=
      { issuer := "customers-api", methodAlg := "EdDSA", timeToLive := 600 * nsPerSecond }
    rfrTokenCfg := { maxCount := 2, timeToLive := 720 * 3600 * nsPerSecond } }

/-- A reliable environment whose bcrypt oracle prefixes the password. -/
def fixtureEnv : Env := Env.reliable (fun p => String.append "bcrypt$" p)

/-- A stored user. -/
def fixtureUser : User := { id := "u1", email := "a@b.c", passwordHash := "bcrypt$pw" }

/-- A stored refresh token for `fixtureUser` with a 10-second ttl. -/
def fixtureToken : RefreshToken :=
  { id := "t1", userId := "u1", fingerprint := "fp", expiresIn := 10, createdAt := 0 }

/-- A store holding `fixtureUser` and `fixtureToken`. -/
def fixtureState : AuthState := { users := [fixtureUser], tokens := [fixtureToken] }

/-! ### Helper lemmas on the list-backed store -/

/-- Searching for `p` after filtering to the complement of `p` finds
nothing: a `DELETE ... WHERE k` followed by `SELECT ... WHERE k` is
empty. -/
theorem find?_filter_not_eq_none (p : α → Bool) (l : List α) :
    (l.filter (fun a => !(p a))).find? p = none := by
  induction l with
  | nil => rfl
  | cons a l ih =>
    by_cases h : p a <;> simp [List.filter_cons, h, List.find?_cons, ih]

/-- `find?` over an append misses when it misses on both parts. -/
theorem find?_append_eq_none (p : α → Bool) (l₁ l₂ : List α)
    (h₁ : l₁.find? p = none) (h₂ : l₂.find? p = none) :
    (l₁ ++ l₂).find? p = none := by
  rw [List.find?_eq_none] at h₁ h₂ ⊢
  intro x hx
  rcases List.mem_append.mp hx with h | h
  · exact h₁ x h
  · exact h₂ x h

/-- Filtering for `p` after filtering to the complement of `p` keeps
nothing. -/
theorem filter_filter_not_eq_nil (p : α → Bool) (l : List α) :
    (l.filter (fun a => !(p a))).filter p = [] := by
  induction l with
  | nil => rfl
  | cons a l ih =>
    by_cases h : p a <;> simp [List.filter_cons, h, ih]

/-- A token found by id has that id. -/
theorem findTokenById_id_eq {s : AuthState} {id : String} {tok : RefreshToken}
    (h : findTokenById s id = some tok) : tok.id = id := by
  have := List.find?_some h
  simpa using this

/-- Deleting a refresh token leaves the users table untouched, so a user
lookup after the delete agrees with one before it. -/
theorem findUserById_deleteTokenById (s : AuthState) (tid uid : String) :
    findUserById (deleteTokenById s tid) uid = findUserById s uid := rfl

/-! ### Claim theorems -/

/-- C8: for every refresh token id absent from the store, `Refresh`
returns the `invalid refresh token provided` error right after the
lookup and mutates nothing — the resulting state is the initial state,
so no token of any user is deleted and none is created. -/
theorem refresh_absent_id_no_mutation (svc : AuthService) (env : Env)
    (s : AuthState) (rfrTokenId fingerprint : String) (now : Int)
    (freshJwtId freshTokenId : String)
    (henv : env.findTokenErr = false)
    (habsent : findTokenById s rfrTokenId = none) :
    svc.Refresh env s rfrTokenId fingerprint now freshJwtId freshTokenId
      = (.err .invalidToken, s) := by
  simp [AuthService.Refresh, henv, habsent]

/-- C8 witness: a lookup for an id not in the store on a concrete state. -/
theorem refresh_absent_id_no_mutation_witness :
    AuthService.Refresh fixtureSvc fixtureEnv fixtureState "zz" "fp" 0 "j1" "t2"
      = (.err .invalidToken, fixtureState) :=
  refresh_absent_id_no_mutation fixtureSvc fixtureEnv fixtureState "zz" "fp" 0
    "j1" "t2" rfl rfl

/-- C7: a token whose algorithm header differs from the verifier's
configured algorithm is rejected by `keyFunc`, so verification fails
with the algorithm error for every possible signature-check oracle —
in particular the public key is never used to validate the signature,
and no claims are returned. -/
theorem verify_rejects_algorithm_mismatch (j : JwtValidator) (t : SignedToken)
    (now : Int) (h : t.alg ≠ j.methodAlg) :
    ∀ sigCheck : String → Bool,
      j.Verify t sigCheck now = .error .algorithmMismatch := by
  intro sigCheck
  simp [JwtValidator.Verify, JwtValidator.keyFunc, h]

/-- C7 witness: an `HS256` token rejected by an `EdDSA` verifier even
when the signature oracle would accept any key. -/
theorem verify_rejects_algorithm_mismatch_witness :
    JwtValidator.Verify { methodAlg := "EdDSA", publicKey := "pk" }
      { alg := "HS256"
        claims :=
          { id := "jid", issuer := "customers-api", subject := "alice"
            expiresAt := 1000000000000, issuedAt := 0 } }
      (fun _ => true) 0
      = .error .algorithmMismatch :=
  verify_rejects_algorithm_mismatch _ _ 0 (by decide) (fun _ => true)

/-- C6: the issuer of `internal/model/auth/jwt.go` embeds
`expiresAt = issuedAt + TTL` and `issuedAt = issuedAt`, and also returns
`expiresAtUnix` of the same instant; but the jwt variant of
`internal/domain/auth` transposes the two embedded claims: at the same
concrete input its embedded `expiresAt` claim equals the given
`issuedAt` (not `issuedAt + TTL`) and its embedded `issuedAt` claim
equals `issuedAt + TTL`.  Evaluated at
`Sign("alice@mail.com", 1000s)` with a 600-second TTL. -/
theorem jwt_sign_embedded_claims_divergence :
    (JwtIssuer.Sign
        { issuer := "customers-api", methodAlg := "EdDSA"
          timeToLive := 600 * nsPerSecond }
        "alice@mail.com" (1000 * nsPerSecond) "jid").signed.claims.expiresAt
      = 1000 * nsPerSecond + 600 * nsPerSecond ∧
    (JwtIssuer.Sign
        { issuer := "customers-api", methodAlg := "EdDSA"
          timeToLive := 600 * nsPerSecond }
        "alice@mail.com" (1000 * nsPerSecond) "jid").signed.claims.issuedAt
      = 1000 * nsPerSecond ∧
    (JwtIssuer.Sign
        { issuer := "customers-api", methodAlg := "EdDSA"
          timeToLive := 600 * nsPerSecond }
        "alice@mail.com" (1000 * nsPerSecond) "jid").expiresAt = 1600 ∧
    (JwtIssuer.SignDomainVariant
        { issuer := "customers-api", methodAlg := "EdDSA"
          timeToLive := 600 * nsPerSecond }
        "alice@mail.com" (1000 * nsPerSecond) "jid").signed.claims.expiresAt
      = 1000 * nsPerSecond ∧
    (JwtIssuer.SignDomainVariant
        { issuer := "customers-api", methodAlg := "EdDSA"
          timeToLive := 600 * nsPerSecond }
        "alice@mail.com" (1000 * nsPerSecond) "jid").signed.claims.issuedAt
      = 1000 * nsPerSecond + 600 * nsPerSecond ∧
    (1000 * nsPerSecond : Int) ≠ 1000 * nsPerSecond + 600 * nsPerSecond := by
  refine ⟨rfl, rfl, rfl, rfl, rfl, by decide⟩

/-- C9 counterexample: at a concrete input, the `auth.User` value
returned by `Signup` carries the generated password hash in its
`PasswordHash` field — the claim that the result never contains the
password hash is false for the service's result. -/
theorem signup_result_contains_hash_cex :
    (AuthService.Signup (Env.reliable (fun p => String.append "bcrypt$" p))
        { users := [], tokens := [] } "a@b.c" "pw123" "uid1").1
      = .ok { id := "uid1", email := "a@b.c", passwordHash := "bcrypt$pw123" } ∧
    ("bcrypt$pw123" : String) ≠ "" := by
  exact ⟨rfl, by decide⟩

/-- C9 amended: a successful `Signup` returns the created user record
whose fields are the fresh id, the given email, and the generated
password hash; the HTTP handler then serializes only the id and the
email, so the hash never reaches the transport response. -/
theorem signup_service_result_and_handler_projection (env : Env)
    (s : AuthState) (email password freshUserId : String)
    (h1 : env.findByEmailErr = false) (h2 : env.hashErr = false)
    (h3 : env.createUserErr = false)
    (hfree : findUserByEmail s email = none) :
    (AuthService.Signup env s email password freshUserId).1
      = .ok { id := freshUserId, email := email, passwordHash := env.hashFn password } ∧
    signupResponse
        { id := freshUserId, email := email, passwordHash := env.hashFn password }
      = { id := freshUserId, email := email } := by
  constructor
  · simp [AuthService.Signup, h1, h2, h3, hfree]
  · rfl

/-- C9 amended witness: a concrete signup into an empty store. -/
theorem signup_service_result_and_handler_projection_witness :
    (AuthService.Signup fixtureEnv { users := [], tokens := [] }
        "x@y.z" "secret" "u9").1
      = .ok { id := "u9", email := "x@y.z", passwordHash := "bcrypt$secret" } ∧
    signupResponse { id := "u9", email := "x@y.z", passwordHash := "bcrypt$secret" }
      = { id := "u9", email := "x@y.z" } :=
  signup_service_result_and_handler_projection fixtureEnv
    { users := [], tokens := [] } "x@y.z" "secret" "u9" rfl rfl rfl rfl

/-- C10: for a stored refresh token whose fingerprint matches and whose
ttl has not elapsed, when the owning user id is absent from the user
store the user lookup yields no row without an error and `Refresh`
dereferences the nil user to read its email — the call panics rather
than returning an error condition. -/
theorem refresh_absent_user_panics (svc : AuthService) (env : Env)
    (s : AuthState) (rfrTokenId fingerprint : String) (now : Int)
    (freshJwtId freshTokenId : String) (tok : RefreshToken)
    (h1 : env.findTokenErr = false) (h2 : env.deleteTokenErr = false)
    (h3 : env.findUserErr = false)
    (hfind : findTokenById s rfrTokenId = some tok)
    (hfp : tok.fingerprint = fingerprint)
    (hfresh : ¬ tok.createdAt + tok.expiresIn * nsPerSecond < now)
    (huser : findUserById s tok.userId = none) :
    (svc.Refresh env s rfrTokenId fingerprint now freshJwtId freshTokenId).1
      = .panics := by
  have hv : tok.Verify fingerprint now = none := by
    simp [RefreshToken.Verify, hfp, hfresh]
  simp [AuthService.Refresh, h1, h2, h3, hfind, hv,
    findUserById_deleteTokenById, huser]

/-- C10 witness: the fixture token's owner id is not in an otherwise
user-free store; redeeming the token with the right fingerprint in time
panics. -/
theorem refresh_absent_user_panics_witness :
    (AuthService.Refresh fixtureSvc fixtureEnv
        { users := [], tokens := [fixtureToken] } "t1" "fp" 0 "j1" "t2").1
      = .panics :=
  refresh_absent_user_panics fixtureSvc fixtureEnv
    { users := [], tokens := [fixtureToken] } "t1" "fp" 0 "j1" "t2"
    fixtureToken rfl rfl rfl rfl rfl (by decide) rfl

/-- C4 counterexample: at the boundary instant
`now = createdAt + ttlSeconds` the condition `createdAt + ttlSeconds <=
now` of the claim holds, yet `Verify` (which uses the strict `Before`)
accepts the token and `Refresh` does not fail with the expiry error —
the fixture token is stored, its fingerprint matches, and the call
succeeds. -/
theorem refresh_expiry_boundary_cex :
    findTokenById fixtureState "t1" = some fixtureToken ∧
    fixtureToken.fingerprint = "fp" ∧
    fixtureToken.createdAt + fixtureToken.expiresIn * nsPerSecond
      ≤ 10 * nsPerSecond ∧
    fixtureToken.Verify "fp" (10 * nsPerSecond) = none ∧
    (AuthService.Refresh fixtureSvc fixtureEnv fixtureState "t1" "fp"
        (10 * nsPerSecond) "j1" "t2").1 ≠ .err .expired := by
  refine ⟨rfl, rfl, by decide, by decide, by decide⟩

/-- C4 amended: for a stored refresh token with a matching fingerprint,
`Refresh` fails with the expiry error exactly when
`createdAt + ttlSeconds < now` (strictly); at the boundary instant
`now = createdAt + ttlSeconds` the token is still treated as valid. -/
theorem refresh_expiry_strict_iff (svc : AuthService) (env : Env)
    (s : AuthState) (rfrTokenId fingerprint : String) (now : Int)
    (freshJwtId freshTokenId : String) (tok : RefreshToken)
    (h1 : env.findTokenErr = false) (h2 : env.deleteTokenErr = false)
    (hfind : findTokenById s rfrTokenId = some tok)
    (hfp : tok.fingerprint = fingerprint) :
    (svc.Refresh env s rfrTokenId fingerprint now freshJwtId freshTokenId).1
        = .err .expired
      ↔ tok.createdAt + tok.expiresIn * nsPerSecond < now := by
  by_cases hexp : tok.createdAt + tok.expiresIn * nsPerSecond < now
  · have hv : tok.Verify fingerprint now = some .expired := by
      simp [RefreshToken.Verify, hfp, hexp]
    simp [AuthService.Refresh, h1, h2, hfind, hv, hexp]
  · have hv : tok.Verify fingerprint now = none := by
      simp [RefreshToken.Verify, hfp, hexp]
    simp only [AuthService.Refresh, h1, hfind, h2, hv, Bool.false_eq_true,
      if_false]
    constructor
    · intro hres
      exfalso
      revert hres
      split
      · simp
      · split
        · simp
        · split
          · simp
          · split <;> simp
    · intro hres
      exact absurd hres hexp

/-- C4 amended witness: one instant past the boundary the same stored
token is rejected as expired. -/
theorem refresh_expiry_strict_iff_witness :
    ((AuthService.Refresh fixtureSvc fixtureEnv fixtureState "t1" "fp"
        (10 * nsPerSecond + 1) "j1" "t2").1 = .err .expired
      ↔ fixtureToken.createdAt + fixtureToken.expiresIn * nsPerSecond
          < 10 * nsPerSecond + 1) :=
  refresh_expiry_strict_iff fixtureSvc fixtureEnv fixtureState "t1" "fp"
    (10 * nsPerSecond + 1) "j1" "t2" fixtureToken rfl rfl rfl rfl

/-- C1: whenever a `Refresh` call gets past the token lookup — it
returns success, the fingerprint-mismatch error, or the expiry error —
the presented token was deleted before the validation ran, so looking
the id up in the resulting store finds nothing.  The freshly minted
token id (a new uuid) is assumed distinct from the presented id. -/
theorem refresh_single_use (svc : AuthService) (env : Env) (s : AuthState)
    (rfrTokenId fingerprint : String) (now : Int)
    (freshJwtId freshTokenId : String)
    (hfreshId : freshTokenId ≠ rfrTokenId)
    (hcons : consumedOutcome
      (svc.Refresh env s rfrTokenId fingerprint now freshJwtId freshTokenId).1
        = true) :
    findTokenById
      (svc.Refresh env s rfrTokenId fingerprint now freshJwtId freshTokenId).2
      rfrTokenId = none := by
  by_cases h1 : env.findTokenErr
  · simp [AuthService.Refresh, h1, consumedOutcome] at hcons
  cases hfind : findTokenById s rfrTokenId with
  | none => simp [AuthService.Refresh, h1, hfind, consumedOutcome] at hcons
  | some tok =>
    have hid : tok.id = rfrTokenId := findTokenById_id_eq hfind
    by_cases h2 : env.deleteTokenErr
    · simp [AuthService.Refresh, h1, hfind, h2, consumedOutcome] at hcons
    have hdel : findTokenById (deleteTokenById s tok.id) rfrTokenId = none := by
      simp only [findTokenById, deleteTokenById, hid]
      exact find?_filter_not_eq_none _ _
    cases hv : tok.Verify fingerprint now with
    | some e =>
      cases e with
      | invalidFingerprint =>
        simpa [AuthService.Refresh, h1, hfind, h2, hv] using hdel
      | expired =>
        simpa [AuthService.Refresh, h1, hfind, h2, hv] using hdel
    | none =>
      by_cases h3 : env.findUserErr
      · simp [AuthService.Refresh, h1, hfind, h2, hv, h3, consumedOutcome]
          at hcons
      cases hu : findUserById (deleteTokenById s tok.id) tok.userId with
      | none =>
        simp [AuthService.Refresh, h1, hfind, h2, hv, h3, hu, consumedOutcome]
          at hcons
      | some user =>
        by_cases h4 : env.signErr
        · simp [AuthService.Refresh, h1, hfind, h2, hv, h3, hu, h4,
            consumedOutcome] at hcons
        by_cases h5 : env.createTokenErr
        · simp [AuthService.Refresh, h1, hfind, h2, hv, h3, hu, h4, h5,
            consumedOutcome] at hcons
        simp only [AuthService.Refresh, h1, hfind, h2, hv, h3, hu, h4, h5,
          Bool.false_eq_true, if_false]
        simp only [findTokenById, createToken, deleteTokenById, hid]
        refine find?_append_eq_none _ _ _ (find?_filter_not_eq_none _ _) ?_
        simp [AuthService.refreshToken, hfreshId]

/-- C1 witness: redeeming the stored fixture token with a mismatched
fingerprint consumes it — the follow-up lookup finds nothing. -/
theorem refresh_single_use_witness :
    findTokenById
      (AuthService.Refresh fixtureSvc fixtureEnv fixtureState "t1" "wrong" 0
        "j1" "t2").2 "t1" = none :=
  refresh_single_use fixtureSvc fixtureEnv fixtureState "t1" "wrong" 0
    "j1" "t2" (by decide) rfl

/-- A successful `LoginBody` run ends in a state that contains the
refresh token it returns: the body's insert is part of the transaction
the body runs in. -/
theorem loginBody_ok_mem (svc : AuthService) (env : Env)
    (email password fingerprint : String) (now : Int)
    (freshJwtId freshTokenId : String) (s : AuthState)
    (v : Jwt × RefreshToken) (s' : AuthState)
    (hb : svc.LoginBody env email password fingerprint now freshJwtId
      freshTokenId s = .ok (v, s')) :
    v.2 ∈ s'.tokens := by
  by_cases h1 : env.findByEmailErr
  · simp [AuthService.LoginBody, h1] at hb
  cases hfind : findUserByEmail s email with
  | none => simp [AuthService.LoginBody, h1, hfind] at hb
  | some user =>
    by_cases h2 : env.pwOk user.passwordHash password = false
    · simp [AuthService.LoginBody, h1, hfind, h2] at hb
    by_cases h3 : env.signErr
    · simp [AuthService.LoginBody, h1, hfind, h2, h3] at hb
    by_cases h4 : env.findTokensErr
    · simp [AuthService.LoginBody, h1, hfind, h2, h3, h4] at hb
    by_cases hq : ((findTokensByUserId s user.id).length : Int)
        ≥ svc.rfrTokenCfg.maxCount
    · by_cases h5 : env.deleteByUserErr
      · simp [AuthService.LoginBody, h1, hfind, h2, h3, h4, hq, h5] at hb
      by_cases h6 : env.createTokenErr
      · simp [AuthService.LoginBody, h1, hfind, h2, h3, h4, hq, h5, h6] at hb
      simp [AuthService.LoginBody, h1, hfind, h2, h3, h4, hq, h5, h6] at hb
      obtain ⟨hv, hs⟩ := hb
      simp [← hv, ← hs, createToken]
    · by_cases h6 : env.createTokenErr
      · simp [AuthService.LoginBody, h1, hfind, h2, h3, h4, hq, h6] at hb
      simp [AuthService.LoginBody, h1, hfind, h2, h3, h4, hq, h6] at hb
      obtain ⟨hv, hs⟩ := hb
      simp [← hv, ← hs, createToken]

/-- C2: `Login` runs its whole body inside one transaction — whenever it
returns an error, the transaction was rolled back and the state
observable afterwards is exactly the initial one (no partial eviction,
no inserted token); whenever it returns a token pair, the transaction
committed and the returned refresh token is present in the resulting
store. -/
theorem login_transactional (svc : AuthService) (env : Env) (s : AuthState)
    (email password fingerprint : String) (now : Int)
    (freshJwtId freshTokenId : String) :
    (∀ e, (svc.Login env s email password fingerprint now freshJwtId
        freshTokenId).1 = .error e →
      (svc.Login env s email password fingerprint now freshJwtId
        freshTokenId).2 = s) ∧
    (∀ jwtToken rfrToken,
      (svc.Login env s email password fingerprint now freshJwtId
        freshTokenId).1 = .ok (jwtToken, rfrToken) →
      rfrToken ∈ (svc.Login env s email password fingerprint now freshJwtId
        freshTokenId).2.tokens) := by
  cases hb : svc.LoginBody env email password fingerprint now freshJwtId
      freshTokenId s with
  | error e =>
    simp [AuthService.Login, WithinTransaction, hb]
  | ok p =>
    obtain ⟨v, s'⟩ := p
    constructor
    · intro e he
      simp [AuthService.Login, WithinTransaction, hb] at he
    · intro jwtToken rfrToken h
      simp only [AuthService.Login, WithinTransaction, hb] at h ⊢
      have hmem := loginBody_ok_mem svc env email password fingerprint now
        freshJwtId freshTokenId s v s' hb
      simp at h
      rw [h] at hmem
      exact hmem

/-- C2 witness: with the signing step failing, `Login` on the fixture
store returns an error and leaves the store exactly as it was. -/
theorem login_transactional_witness :
    (AuthService.Login fixtureSvc { fixtureEnv with signErr := true }
      fixtureState "a@b.c" "pw" "fp" 0 "j1" "t2").2 = fixtureState :=
  (login_transactional fixtureSvc { fixtureEnv with signErr := true }
    fixtureState "a@b.c" "pw" "fp" 0 "j1" "t2").1 .signingFailure rfl

/-- C3: a successful `Login` for a user who already holds `MaxCount` or
more refresh tokens deletes all of the user's existing tokens and
creates exactly one new one — afterwards the user's tokens are exactly
the singleton new token; when the user holds fewer than `MaxCount`
tokens, nothing is deleted — the user's tokens afterwards are the
existing ones followed by the new one. -/
theorem login_quota_eviction (svc : AuthService) (env : Env) (s : AuthState)
    (email password fingerprint : String) (now : Int)
    (freshJwtId freshTokenId : String) (user : User)
    (h1 : env.findByEmailErr = false) (h2 : env.signErr = false)
    (h3 : env.findTokensErr = false) (h4 : env.deleteByUserErr = false)
    (h5 : env.createTokenErr = false)
    (hfind : findUserByEmail s email = some user)
    (hpw : env.pwOk user.passwordHash password = true) :
    (svc.Login env s email password fingerprint now freshJwtId
        freshTokenId).1
      = .ok (svc.jwtIssuer.Sign email now freshJwtId,
             svc.refreshToken user.id fingerprint now freshTokenId) ∧
    (if ((findTokensByUserId s user.id).length : Int)
        ≥ svc.rfrTokenCfg.maxCount
     then
       findTokensByUserId
         (svc.Login env s email password fingerprint now freshJwtId
           freshTokenId).2 user.id
         = [svc.refreshToken user.id fingerprint now freshTokenId]
     else
       findTokensByUserId
         (svc.Login env s email password fingerprint now freshJwtId
           freshTokenId).2 user.id
         = findTokensByUserId s user.id
             ++ [svc.refreshToken user.id fingerprint now freshTokenId]) := by
  by_cases hq : ((findTokensByUserId s user.id).length : Int)
      ≥ svc.rfrTokenCfg.maxCount
  · constructor
    · simp [AuthService.Login, WithinTransaction, AuthService.LoginBody,
        h1, h2, h3, h4, h5, hfind, hpw, hq]
    · rw [if_pos hq]
      simp only [AuthService.Login, WithinTransaction, AuthService.LoginBody,
        h1, h2, h3, h4, h5, hfind, hpw, hq, if_pos, if_true, Bool.false_eq_true,
        if_false, ite_true, ite_false]
      simp only [findTokensByUserId, createToken, deleteTokensByUserId,
        List.filter_append, filter_filter_not_eq_nil]
      simp [AuthService.refreshToken]
  · constructor
    · simp [AuthService.Login, WithinTransaction, AuthService.LoginBody,
        h1, h2, h3, h4, h5, hfind, hpw, hq]
    · rw [if_neg hq]
      simp only [AuthService.Login, WithinTransaction, AuthService.LoginBody,
        h1, h2, h3, h4, h5, hfind, hpw, hq, Bool.false_eq_true, if_false,
        ite_true, ite_false]
      simp only [findTokensByUserId, createToken, List.filter_append]
      simp [AuthService.refreshToken]

/-- C3 witness: `MaxCount = 2` and a user already holding two tokens —
after a successful login the user holds exactly the new token. -/
theorem login_quota_eviction_witness :
    findTokensByUserId
      (AuthService.Login fixtureSvc fixtureEnv
        { users := [fixtureUser]
          tokens :=
            [fixtureToken,
             { id := "t9", userId := "u1", fingerprint := "fp2"
               expiresIn := 10, createdAt := 0 }] }
        "a@b.c" "pw" "fp" 0 "j1" "t2").2 "u1"
      = [fixtureSvc.refreshToken "u1" "fp" 0 "t2"] := by
  have h := login_quota_eviction fixtureSvc fixtureEnv
    { users := [fixtureUser]
      tokens :=
        [fixtureToken,
         { id := "t9", userId := "u1", fingerprint := "fp2"
           expiresIn := 10, createdAt := 0 }] }
    "a@b.c" "pw" "fp" 0 "j1" "t2" fixtureUser rfl rfl rfl rfl rfl rfl rfl
  simpa using h.2

/-- C5 counterexample: in the embedded service
(`internal/service/auth.go` with the `part_018` `Verify`), redeeming the
stored fixture token with a mismatched fingerprint returns the very same
error value — the generic `echo` 400 `invalid refresh token provided` —
that an unknown token id returns, so the fingerprint-mismatch condition
is not inspectable as distinct from the invalid-token condition and is
a generic string. -/
theorem refresh_fingerprint_error_not_distinct_cex :
    findTokenById fixtureState "t1" = some fixtureToken ∧
    fixtureToken.fingerprint ≠ "wrong" ∧
    refreshErrorValue fixtureState "t1" "wrong" 0
      = some { code := 400, message := "invalid refresh token provided" } ∧
    findTokenById fixtureState "zz" = none ∧
    refreshErrorValue fixtureState "zz" "wrong" 0
      = some { code := 400, message := "invalid refresh token provided" } := by
  refine ⟨rfl, by decide, rfl, rfl, rfl⟩

/-- C5 amended: for a stored refresh token whose fingerprint differs
from the presented one, the mismatch is detected before the expiry
check — the rejection message is returned whether or not the token is
expired (`now` is unconstrained) — but the embedded service wraps it
into the same HTTP 400 `invalid refresh token provided` value that it
returns for an id absent from the store, so the two conditions coincide
at the service boundary. -/
theorem refresh_fingerprint_mismatch_same_error (s : AuthState)
    (rfrTokenId fingerprint : String) (now : Int) (tok : RefreshToken)
    (hfind : findTokenById s rfrTokenId = some tok)
    (hfp : tok.fingerprint ≠ fingerprint) :
    tok.VerifyMessage fingerprint now = some "invalid refresh token provided" ∧
    refreshErrorValue s rfrTokenId fingerprint now
      = some { code := statusBadRequest
               message := "invalid refresh token provided" } ∧
    (∀ absentId, findTokenById s absentId = none →
      refreshErrorValue s absentId fingerprint now
        = refreshErrorValue s rfrTokenId fingerprint now) := by
  have hv : tok.VerifyMessage fingerprint now
      = some "invalid refresh token provided" := by
    simp [RefreshToken.VerifyMessage, hfp]
  refine ⟨hv, ?_, ?_⟩
  · simp [refreshErrorValue, hfind, hv]
  · intro absentId habsent
    simp [refreshErrorValue, hfind, hv, habsent]

/-- C5 amended witness: the fixture token presented with the wrong
fingerprint, compared against the absent id `zz`. -/
theorem refresh_fingerprint_mismatch_same_error_witness :
    fixtureToken.VerifyMessage "wrong" 0
      = some "invalid refresh token provided" ∧
    refreshErrorValue fixtureState "t1" "wrong" 0
      = some { code := statusBadRequest
               message := "invalid refresh token provided" } ∧
    refreshErrorValue fixtureState "zz" "wrong" 0
      = refreshErrorValue fixtureState "t1" "wrong" 0 := by
  have h := refresh_fingerprint_mismatch_same_error fixtureState "t1" "wrong"
    0 fixtureToken rfl (by decide)
  exact ⟨h.1, h.2.1, h.2.2 "zz" rfl⟩

end Customers
